import Mathlib

set_option autoImplicit false

/-!
Shallow embedding of `main.go` from the otel-with-golang demo service.

The program is a single-endpoint HTTP service instrumented with
OpenTelemetry: a startup sequence (resource, trace exporter/provider,
metric exporter/controller, instruments, HTTP serve) and one handler
`hello` that creates two manual spans, logs a validation message,
writes a JSON response and increments a counter metric.

Pure Go functions become Lean functions; the `http.ResponseWriter` is
modelled as explicit state following the documented net/http contract
(changing the header map after a call to WriteHeader or Write has no
effect on the transmitted headers); the tracer is modelled as a span
store with a logical clock; the external calls made during startup
(resource construction, exporter construction, controller start, port
binding) are modelled by injecting their success/failure outcome, and
`runMain` mirrors `main`'s control flow over those outcomes.
-/

namespace OtelHello

/-! ### Constants from the `const` block of main.go -/

def serviceName : String := "hello-app"

def serviceVersion : String := "1.0"

def metricPrefixVal : String := "custom.metric."

def numberOfExecName : String := metricPrefixVal ++ "number.of.exec"

def numberOfExecDesc : String := "Count the number of executions."

def heapMemoryName : String := metricPrefixVal ++ "heap.memory"

def heapMemoryDesc : String := "Reports heap memory utilization."

/-! ### The HTTP response writer

Models Go's `http.ResponseWriter` as used by the handler.  `headerMap`
is the handler-visible header map returned by `Header()`;
`sentHeaders` is the snapshot actually transmitted, fixed at the first
`WriteHeader` (or implicit `WriteHeader(200)` on the first `Write`):
per the net/http contract, changing the header map after that point
has no effect on the wire. -/

structure ResponseWriter where
  headerMap : List (String × String)
  wroteHeader : Bool
  status : Nat
  sentHeaders : List (String × String)
  body : String
deriving DecidableEq, Repr

def ResponseWriter.init : ResponseWriter :=
  { headerMap := [], wroteHeader := false, status := 0, sentHeaders := [], body := "" }

/-- `writer.WriteHeader(code)`: the first call fixes the status and
snapshots the current header map as the transmitted headers; later
calls are no-ops. -/
def ResponseWriter.writeHeader (w : ResponseWriter) (code : Nat) : ResponseWriter :=
  if w.wroteHeader then w
  else { w with wroteHeader := true, status := code, sentHeaders := w.headerMap }

/-- `writer.Header().Add(k, v)`: appends to the handler-visible header
map.  It reaches the wire only if `WriteHeader` has not run yet. -/
def ResponseWriter.headerAdd (w : ResponseWriter) (k v : String) : ResponseWriter :=
  { w with headerMap := w.headerMap ++ [(k, v)] }

/-- `writer.Write(bytes)`: implicit `WriteHeader(200)` if the header
was not yet written, then append to the body. -/
def ResponseWriter.write (w : ResponseWriter) (s : String) : ResponseWriter :=
  let w1 := w.writeHeader 200
  { w1 with body := w1.body ++ s }

/-- First transmitted value of a header key, if any. -/
def lookupHeader (hs : List (String × String)) (k : String) : Option String :=
  (hs.find? (fun p => p.1 = k)).map (fun p => p.2)

/-! ### The Response payload and Go's JSON encoding of it -/

structure Response where
  Message : String
deriving DecidableEq, Repr

/-- `func (r Response) isValid() bool` from main.go: returns true. -/
def Response.isValid (_ : Response) : Bool := true

def hexDigit (n : Nat) : Char :=
  if n < 10 then Char.ofNat (48 + n) else Char.ofNat (87 + n)

/-- Go `encoding/json` escaping of one character of a string value
(ASCII payloads): quote, backslash, the common control escapes, the
HTML-escaped characters, and \u00XX for remaining control bytes. -/
def goJSONEscapeChar (c : Char) : String :=
  if c = '"' then "\\\""
  else if c = '\\' then "\\\\"
  else if c = '\n' then "\\n"
  else if c = '\r' then "\\r"
  else if c = '\t' then "\\t"
  else if c = '<' then "\\u003c"
  else if c = '>' then "\\u003e"
  else if c = '&' then "\\u0026"
  else if c.toNat < 32 then
    "\\u00" ++ String.singleton (hexDigit (c.toNat / 16)) ++ String.singleton (hexDigit (c.toNat % 16))
  else String.singleton c

def goJSONQuote (s : String) : String :=
  "\"" ++ String.join (s.toList.map goJSONEscapeChar) ++ "\""

/-- `json.Marshal` of the `Response` struct with its `json:"Message"`
tag (marshalling this struct never fails; the handler discards the
error). -/
def jsonMarshalResponse (r : Response) : String :=
  "\x7b\"Message\":" ++ goJSONQuote r.Message ++ "\x7d"

/-! ### The tracer

Spans of one request's trace, identified by their position in the
list, with a logical clock ordering starts and ends. -/

structure Span where
  name : String
  parent : Option Nat
  startTime : Nat
  endTime : Option Nat
deriving DecidableEq, Repr

structure TraceState where
  clock : Nat
  spans : List Span
deriving DecidableEq, Repr

/-- `tracer.Start(ctx, name)`: records a new span whose parent is the
span carried by `ctx`, and returns the state, the derived context
(now carrying the new span) and the new span's identifier. -/
def TraceState.startSpan (st : TraceState) (ctx : Option Nat) (name : String) :
    TraceState × Option Nat × Nat :=
  let id := st.spans.length
  ({ clock := st.clock + 1,
     spans := st.spans ++ [{ name := name, parent := ctx, startTime := st.clock, endTime := none }] },
   some id, id)

/-- `span.End()`: stamps the end time of the span, once; a second End
on the same span is ignored by the SDK. -/
def TraceState.endSpan (st : TraceState) (id : Nat) : TraceState :=
  match st.spans.get? id with
  | none => { st with clock := st.clock + 1 }
  | some sp =>
      if sp.endTime.isNone then
        { clock := st.clock + 1, spans := st.spans.set id { sp with endTime := some st.clock } }
      else
        { st with clock := st.clock + 1 }

def Span.endsAfterStart (s : Span) : Bool :=
  match s.endTime with
  | none => false
  | some e => s.startTime < e

/-- Two completed spans either occupy disjoint time intervals or one
interval contains the other. -/
def Span.separatedOrNested (a b : Span) : Bool :=
  match a.endTime, b.endTime with
  | some ea, some eb =>
      (ea ≤ b.startTime) || (eb ≤ a.startTime) ||
      (a.startTime ≤ b.startTime && eb ≤ ea) || (b.startTime ≤ a.startTime && ea ≤ eb)
  | _, _ => false

/-! ### The handler -/

/-- Observable steps of one run of the handler, in program order. -/
inductive Event where
  | received : Event
  | spanStarted : String → Event
  | spanEnded : String → Event
  | logged : String → Event
  | metricAdded : Nat → Event
  | completed : Event
deriving DecidableEq, Repr

def Event.isMachineStep : Event → Bool
  | Event.logged _ => false
  | _ => true

def Event.isMetricAdd : Event → Bool
  | Event.metricAdded _ => true
  | _ => false

/-- Process-wide mutable state touched by the handler: the spans of
the current request's trace, the accumulated value of the
`numberOfExecutions` counter (int64 in Go; two's-complement
wraparound, unreachable below 2^63 increments, is not modelled), and
the log output. -/
structure AppState where
  trace : TraceState
  counter : Nat
  logs : List String
deriving DecidableEq, Repr

/-- `func buildResponse(writer http.ResponseWriter) Response`:
WriteHeader(200), then Header().Add("Content-Type",
"application/json"), then marshal and write the payload. -/
def buildResponse (writer : ResponseWriter) : ResponseWriter × Response :=
  let writer := writer.writeHeader 200
  let writer := writer.headerAdd "Content-Type" "application/json"
  let response : Response := { Message := "Hello World" }
  let bytes := jsonMarshalResponse response
  let writer := writer.write bytes
  (writer, response)

/-- `func hello(writer, request)`: start the `buildResponse` span
(reassigning the context), build the response, end the span; start
`mySpan` from the reassigned context, log if the response is valid,
end it; add 1 to the execution counter. -/
def hello (st : AppState) (reqCtx : Option Nat) (writer : ResponseWriter) :
    AppState × ResponseWriter × List Event :=
  let (tr1, ctx1, buildRespId) := st.trace.startSpan reqCtx "buildResponse"
  let (writer1, response) := buildResponse writer
  let tr2 := tr1.endSpan buildRespId
  let (tr3, _, mySpanId) := tr2.startSpan ctx1 "mySpan"
  let (logs1, logEvents) :=
    if response.isValid then
      (st.logs ++ ["The response is valid"], [Event.logged "The response is valid"])
    else (st.logs, ([] : List Event))
  let tr4 := tr3.endSpan mySpanId
  let counter1 := st.counter + 1
  ({ trace := tr4, counter := counter1, logs := logs1 }, writer1,
   [Event.received, Event.spanStarted "buildResponse", Event.spanEnded "buildResponse",
    Event.spanStarted "mySpan"] ++ logEvents ++
   [Event.spanEnded "mySpan", Event.metricAdded 1, Event.completed])

/-- Route template used by the otelmux middleware as the root span name. -/
def routeSpanName : String := "/hello"

/-- One request to /hello: the middleware starts the root span in a
fresh trace and hands its context to the handler; after the handler
returns the middleware ends the root span.  `counter` and `logs` are
the process-global state carried across requests. -/
def serveHello (counter : Nat) (logs : List String) : AppState × ResponseWriter × List Event :=
  let (t1, rootCtx, rootId) := TraceState.startSpan { clock := 0, spans := [] } none routeSpanName
  let (st, w, evs) := hello { trace := t1, counter := counter, logs := logs } rootCtx ResponseWriter.init
  ({ st with trace := st.trace.endSpan rootId }, w, evs)

/-- Global counter value after `n` sequential completed requests,
starting from accumulated value `c`. -/
def runRequests : Nat → Nat → Nat
  | 0, c => c
  | n + 1, c => runRequests n ((serveHello c []).1.counter)

/-- The canonical single request from a fresh start. -/
def singleRequest : AppState × ResponseWriter × List Event :=
  serveHello 0 []

def singleRequestState : AppState := singleRequest.1

def singleRequestWriter : ResponseWriter := singleRequest.2.1

def singleRequestEvents : List Event := singleRequest.2.2

/-- Span at position `i` of the single request's trace. -/
def spanAt (i : Nat) : Span :=
  (singleRequestState.trace.spans.get? i).getD
    { name := "", parent := none, startTime := 0, endTime := none }

/-! ### The metric instruments and the heap callback -/

inductive InstrumentKind where
  | counter : InstrumentKind
  | counterObserver : InstrumentKind
  | asyncGauge : InstrumentKind
deriving DecidableEq, Repr

structure Instrument where
  name : String
  description : String
  kind : InstrumentKind
deriving DecidableEq, Repr

/-- `metric.Must(meter).NewInt64Counter(numberOfExecName, ...)`: a
synchronous, monotonic int64 counter. -/
def numberOfExecutionsInstrument : Instrument :=
  { name := numberOfExecName, description := numberOfExecDesc, kind := InstrumentKind.counter }

/-- `metric.Must(meter).NewInt64CounterObserver(heapMemoryName, ...)`:
an asynchronous (callback-driven) counter observer. -/
def heapMemoryInstrument : Instrument :=
  { name := heapMemoryName, description := heapMemoryDesc, kind := InstrumentKind.counterObserver }

/-- Go conversion `int64(x)` for `x : uint64`: two's-complement
reinterpretation. -/
def uint64ToInt64 (n : Nat) : Int :=
  if n % 2 ^ 64 < 2 ^ 63 then ((n % 2 ^ 64 : Nat) : Int)
  else ((n % 2 ^ 64 : Nat) : Int) - 2 ^ 64

/-- The callback registered for `custom.metric.heap.memory`: reads
`mem.HeapAlloc` (a uint64 reported by `runtime.ReadMemStats` at the
moment of the collection tick) and observes `int64(mem.HeapAlloc)`. -/
def heapMemoryCallback (heapAlloc : Nat) : Int := uint64ToInt64 heapAlloc

/-! ### Startup control flow of `main`

External calls made during startup succeed or fail depending on the
environment; `StartupWorld` injects those outcomes and `runMain`
mirrors `main`'s control flow over them.  `log.Fatalf` prints the
message and terminates the process with exit code 1 via `os.Exit`,
which does not run deferred functions. -/

/-- Resource attributes from `resource.New(ctx, resource.WithAttributes(...))`. -/
def resourceAttributes : List (String × String) :=
  [("service.name", serviceName), ("service.version", serviceVersion)]

/-- Options passed to an OTLP/gRPC exporter constructor: the endpoint
string, `WithInsecure()`, and `WithDialOption(grpc.WithBlock())`. -/
structure OtlpConfig where
  endpoint : String
  insecure : Bool
  blockDial : Bool
deriving DecidableEq, Repr

/-- Outcomes of the external calls made by `main`:
the value of the EXPORTER_ENDPOINT variable (`none` when unset),
whether each fallible startup step fails, and whether
`http.ListenAndServe` returns (it returns only on failure to bind or
serve; on success it blocks forever). -/
structure StartupWorld where
  exporterEndpointVar : Option String
  resourceFails : Bool
  traceExporterFails : Bool
  metricExporterFails : Bool
  controllerStartFails : Bool
  listenReturns : Bool
deriving DecidableEq, Repr

/-- `os.Getenv`: empty string when the variable is unset. -/
def osGetenv (v : Option String) : String := v.getD ""

/-- Observable outcome of running `main`: `exitCode` is `none` while
the process is still running (blocked in `ListenAndServe`);
`fatalLogs` holds `log.Fatalf` output; `portBound` says whether the
HTTP port was successfully bound; the remaining fields record the
telemetry configuration built along the way and whether the deferred
`pusher.Stop(ctx)` ran. -/
structure MainResult where
  exitCode : Option Nat
  fatalLogs : List String
  portBound : Bool
  traceCfg : Option OtlpConfig
  metricCfg : Option OtlpConfig
  tracerResource : Option (List (String × String))
  controllerResource : Option (List (String × String))
  collectPeriodSecs : Option Nat
  controllerStarted : Bool
  stopInvoked : Bool
  instruments : List Instrument
deriving DecidableEq, Repr

def startupFails (w : StartupWorld) : Bool :=
  w.resourceFails || w.traceExporterFails || w.metricExporterFails || w.controllerStartFails

/-- `func main()` step by step:
resource.New; otlptracegrpc.New; SetTracerProvider (resource,
AlwaysSample); SetTextMapPropagator; otlpmetricgrpc.New;
controller.New (resource, collect period 5s); pusher.Start;
`defer pusher.Stop(ctx)` registered only after a successful Start;
instrument registration; ListenAndServe (its error is ignored, so if
it returns, main returns normally and the deferred Stop runs). -/
def runMain (w : StartupWorld) : MainResult :=
  let endpoint := osGetenv w.exporterEndpointVar
  if w.resourceFails then
    { exitCode := some 1, fatalLogs := ["failed to create resource"], portBound := false,
      traceCfg := none, metricCfg := none, tracerResource := none, controllerResource := none,
      collectPeriodSecs := none, controllerStarted := false, stopInvoked := false,
      instruments := [] }
  else
    let tCfg : OtlpConfig := { endpoint := endpoint, insecure := true, blockDial := true }
    if w.traceExporterFails then
      { exitCode := some 1, fatalLogs := ["failed to create exporter"], portBound := false,
        traceCfg := some tCfg, metricCfg := none, tracerResource := none,
        controllerResource := none, collectPeriodSecs := none, controllerStarted := false,
        stopInvoked := false, instruments := [] }
    else
      let mCfg : OtlpConfig := { endpoint := endpoint, insecure := true, blockDial := true }
      if w.metricExporterFails then
        { exitCode := some 1, fatalLogs := ["failed to create exporter"], portBound := false,
          traceCfg := some tCfg, metricCfg := some mCfg,
          tracerResource := some resourceAttributes, controllerResource := none,
          collectPeriodSecs := none, controllerStarted := false, stopInvoked := false,
          instruments := [] }
      else
        if w.controllerStartFails then
          { exitCode := some 1, fatalLogs := ["failed to start the controller"],
            portBound := false, traceCfg := some tCfg, metricCfg := some mCfg,
            tracerResource := some resourceAttributes,
            controllerResource := some resourceAttributes, collectPeriodSecs := some 5,
            controllerStarted := false, stopInvoked := false, instruments := [] }
        else
          if w.listenReturns then
            { exitCode := some 0, fatalLogs := [], portBound := false,
              traceCfg := some tCfg, metricCfg := some mCfg,
              tracerResource := some resourceAttributes,
              controllerResource := some resourceAttributes, collectPeriodSecs := some 5,
              controllerStarted := true, stopInvoked := true,
              instruments := [numberOfExecutionsInstrument, heapMemoryInstrument] }
          else
            { exitCode := none, fatalLogs := [], portBound := true,
              traceCfg := some tCfg, metricCfg := some mCfg,
              tracerResource := some resourceAttributes,
              controllerResource := some resourceAttributes, collectPeriodSecs := some 5,
              controllerStarted := true, stopInvoked := false,
              instruments := [numberOfExecutionsInstrument, heapMemoryInstrument] }

/-- A world in which every startup step succeeds and serving blocks. -/
def wServe : StartupWorld :=
  { exporterEndpointVar := some "collector:4317", resourceFails := false,
    traceExporterFails := false, metricExporterFails := false,
    controllerStartFails := false, listenReturns := false }

/-- A world in which resource creation fails at startup. -/
def wResourceFail : StartupWorld :=
  { exporterEndpointVar := none, resourceFails := true, traceExporterFails := false,
    metricExporterFails := false, controllerStartFails := false, listenReturns := false }

/-- A world in which trace exporter construction fails at startup
(e.g. the configured endpoint is unreachable or empty). -/
def wTraceFail : StartupWorld :=
  { exporterEndpointVar := none, resourceFails := false, traceExporterFails := true,
    metricExporterFails := false, controllerStartFails := false, listenReturns := false }

/-- A world in which startup succeeds but the HTTP port cannot be
bound, so `ListenAndServe` returns and `main` returns normally. -/
def wListenFail : StartupWorld :=
  { exporterEndpointVar := some "collector:4317", resourceFails := false,
    traceExporterFails := false, metricExporterFails := false,
    controllerStartFails := false, listenReturns := true }

end OtelHello

namespace OtelHello

/-! ### Helper lemmas -/

theorem serveHello_events (c : Nat) (l : List String) :
    (serveHello c l).2.2 =
      [Event.received, Event.spanStarted "buildResponse", Event.spanEnded "buildResponse",
       Event.spanStarted "mySpan", Event.logged "The response is valid",
       Event.spanEnded "mySpan", Event.metricAdded 1, Event.completed] := rfl

theorem serveHello_logs (c : Nat) (l : List String) :
    (serveHello c l).1.logs = l ++ ["The response is valid"] := rfl

theorem serveHello_counter (c : Nat) (l : List String) :
    (serveHello c l).1.counter = c + 1 := rfl

theorem runRequests_eq_add (n c : Nat) : runRequests n c = c + n := by
  induction n generalizing c with
  | zero => simp [runRequests]
  | succ k ih =>
      calc runRequests (k + 1) c = runRequests k ((serveHello c []).1.counter) := rfl
        _ = runRequests k (c + 1) := by rw [serveHello_counter]
        _ = (c + 1) + k := ih (c + 1)
        _ = c + (k + 1) := by omega

/-! ### Claim theorems -/

/-- Claim C1 (evaluation at the failing input): a completed GET /hello
writes status 200 and exactly the body from `json.Marshal`, and the
handler does add Content-Type: application/json to the header map —
but only after `WriteHeader(200)`, so per the net/http contract the
transmitted headers do not carry Content-Type.  The writer's final
state depends only on `buildResponse`, independent of any telemetry
state. -/
theorem c1_content_type_dropped :
    singleRequestWriter.status = 200
    ∧ singleRequestWriter.body = "\x7b\"Message\":\"Hello World\"\x7d"
    ∧ lookupHeader singleRequestWriter.headerMap "Content-Type" = some "application/json"
    ∧ lookupHeader singleRequestWriter.sentHeaders "Content-Type" = none
    ∧ (∀ st reqCtx, (hello st reqCtx ResponseWriter.init).2.1 = singleRequestWriter) :=
  ⟨rfl, by decide, by decide, rfl, fun _ _ => rfl⟩

/-- Claim C2 counterexample: the claim says both child spans are
nested directly under the route's root span (span 0); in fact the
handler reuses the context returned by the first `tracer.Start`, so
`mySpan`'s parent is span 1 (`buildResponse`), not span 0. -/
theorem c2_counterexample_parent :
    (spanAt 0).name = routeSpanName ∧ (spanAt 0).parent = none
    ∧ (spanAt 1).name = "buildResponse" ∧ (spanAt 1).parent = some 0
    ∧ (spanAt 2).name = "mySpan" ∧ (spanAt 2).parent = some 1
    ∧ ¬ (spanAt 2).parent = some 0 := by decide

/-- Claim C2 as amended: one request produces exactly two child spans,
named `buildResponse` and `mySpan`; `buildResponse` is a direct child
of the root span, `mySpan` is a child of `buildResponse`; each span
ends after it starts (1 < 2 and 3 < 4) and the two intervals are
non-overlapping (2 ≤ 3). -/
theorem c2_amended_spans :
    singleRequestState.trace.spans.length = 3
    ∧ spanAt 0 = { name := routeSpanName, parent := none, startTime := 0, endTime := some 5 }
    ∧ spanAt 1 = { name := "buildResponse", parent := some 0, startTime := 1, endTime := some 2 }
    ∧ spanAt 2 = { name := "mySpan", parent := some 1, startTime := 3, endTime := some 4 }
    ∧ Span.endsAfterStart (spanAt 1) = true
    ∧ Span.endsAfterStart (spanAt 2) = true
    ∧ Span.separatedOrNested (spanAt 1) (spanAt 2) = true := by decide

/-- Claim C3: every execution of the handler performs exactly one
metric Add, with delta 1, and increments the counter by exactly one;
hence after N completed requests from a fresh start the accumulated
counter value is exactly N. -/
theorem c3_counter_exactly_n :
    (∀ st reqCtx writer,
      ((hello st reqCtx writer).2.2).filter Event.isMetricAdd = [Event.metricAdded 1]
      ∧ (hello st reqCtx writer).1.counter = st.counter + 1)
    ∧ (∀ n, runRequests n 0 = n) := by
  refine ⟨fun st reqCtx writer => ⟨rfl, rfl⟩, fun n => ?_⟩
  simpa using runRequests_eq_add n 0

/-- Claim C4: if any startup step fails (resource creation, either
exporter construction, controller start), `main` logs a fatal message
and the process exits with code 1 without ever binding the HTTP port;
and whenever the port is bound, the process never exits (it blocks in
`ListenAndServe`). -/
theorem c4_startup_fatal (w : StartupWorld) :
    (startupFails w = true →
      (runMain w).exitCode = some 1 ∧ (runMain w).portBound = false
      ∧ (runMain w).fatalLogs ≠ [])
    ∧ ((runMain w).portBound = true → (runMain w).exitCode = none) := by
  rcases w with ⟨ep, rf, tf, mf, cf, lr⟩
  cases rf <;> cases tf <;> cases mf <;> cases cf <;> cases lr <;>
    simp [startupFails, runMain]

theorem c4_startup_fatal_witness :
    ((runMain wResourceFail).exitCode = some 1 ∧ (runMain wResourceFail).portBound = false
      ∧ (runMain wResourceFail).fatalLogs ≠ [])
    ∧ (runMain wServe).exitCode = none :=
  ⟨(c4_startup_fatal wResourceFail).1 rfl, (c4_startup_fatal wServe).2 rfl⟩

/-- Claim C5: `os.Getenv` yields "" when EXPORTER_ENDPOINT is unset
(the code substitutes no default), both exporter configurations carry
the environment value verbatim with `WithInsecure()` set (no TLS),
and when the exporter cannot be constructed (e.g. the endpoint is
unreachable or empty) startup aborts fatally before the port is
bound. -/
theorem c5_endpoint_required_insecure (w : StartupWorld) :
    osGetenv none = ""
    ∧ (w.resourceFails = false →
        (runMain w).traceCfg =
          some { endpoint := osGetenv w.exporterEndpointVar, insecure := true, blockDial := true })
    ∧ (w.resourceFails = false → w.traceExporterFails = false →
        (runMain w).metricCfg =
          some { endpoint := osGetenv w.exporterEndpointVar, insecure := true, blockDial := true })
    ∧ (w.traceExporterFails = true →
        (runMain w).exitCode = some 1 ∧ (runMain w).portBound = false) := by
  rcases w with ⟨ep, rf, tf, mf, cf, lr⟩
  cases rf <;> cases tf <;> cases mf <;> cases cf <;> cases lr <;>
    simp [runMain, osGetenv]

theorem c5_endpoint_witness :
    (runMain wServe).traceCfg =
      some { endpoint := osGetenv wServe.exporterEndpointVar, insecure := true, blockDial := true }
    ∧ (runMain wTraceFail).exitCode = some 1 ∧ (runMain wTraceFail).portBound = false :=
  ⟨(c5_endpoint_required_insecure wServe).2.1 rfl,
   ((c5_endpoint_required_insecure wTraceFail).2.2.2 rfl).1,
   ((c5_endpoint_required_insecure wTraceFail).2.2.2 rfl).2⟩

/-- Claim C6: once the metric controller has started (so the deferred
`pusher.Stop(ctx)` is registered), every path on which the process
exits invokes Stop.  After a successful `Start` the code contains no
further Fatal-style exit (which would skip deferred functions): the
only exit is `main` returning after `ListenAndServe` returns, and the
deferred Stop runs there. -/
theorem c6_stop_runs_on_exit (w : StartupWorld) (c : Nat)
    (hstart : (runMain w).controllerStarted = true)
    (hexit : (runMain w).exitCode = some c) :
    (runMain w).stopInvoked = true := by
  rcases w with ⟨ep, rf, tf, mf, cf, lr⟩
  cases rf <;> cases tf <;> cases mf <;> cases cf <;> cases lr <;>
    simp_all [runMain]

theorem c6_stop_witness : (runMain wListenFail).stopInvoked = true :=
  c6_stop_runs_on_exit wListenFail 0 rfl rfl

/-- Claim C7: the handler's observable steps, projected to the
per-request state machine, occur in exactly the claimed order, with
`completed` as the very last event; when the handler returns, every
span of the request is ended (end after start), so nothing mutates
spans or the response afterwards. -/
theorem c7_request_state_machine :
    singleRequestEvents.filter Event.isMachineStep =
      [Event.received, Event.spanStarted "buildResponse", Event.spanEnded "buildResponse",
       Event.spanStarted "mySpan", Event.spanEnded "mySpan", Event.metricAdded 1,
       Event.completed]
    ∧ singleRequestEvents.getLast? = some Event.completed
    ∧ singleRequestState.trace.spans.all Span.endsAfterStart = true := by decide

/-- Claim C8 counterexample: the claim calls `custom.metric.heap.memory`
an async gauge; the code constructs it with `NewInt64CounterObserver`,
an asynchronous counter observer, not a gauge instrument. -/
theorem c8_counterexample_kind :
    heapMemoryInstrument.kind ≠ InstrumentKind.asyncGauge
    ∧ heapMemoryInstrument.kind = InstrumentKind.counterObserver := by decide

/-- Claim C8 as amended: both telemetry pipelines are configured with
the resource attributes service.name=hello-app and
service.version=1.0, the instruments are
custom.metric.number.of.exec (a monotonic counter) and
custom.metric.heap.memory (an asynchronous counter observer, not an
async gauge), and the controller's collect period is 5 seconds. -/
theorem c8_amended_telemetry_identity (w : StartupWorld) (h1 : w.resourceFails = false)
    (h2 : w.traceExporterFails = false) (h3 : w.metricExporterFails = false)
    (h4 : w.controllerStartFails = false) :
    resourceAttributes = [("service.name", "hello-app"), ("service.version", "1.0")]
    ∧ (runMain w).tracerResource = some resourceAttributes
    ∧ (runMain w).controllerResource = some resourceAttributes
    ∧ (runMain w).collectPeriodSecs = some 5
    ∧ (runMain w).instruments = [numberOfExecutionsInstrument, heapMemoryInstrument]
    ∧ numberOfExecutionsInstrument.name = "custom.metric.number.of.exec"
    ∧ numberOfExecutionsInstrument.kind = InstrumentKind.counter
    ∧ heapMemoryInstrument.name = "custom.metric.heap.memory"
    ∧ heapMemoryInstrument.kind = InstrumentKind.counterObserver := by
  rcases w with ⟨ep, rf, tf, mf, cf, lr⟩
  subst h1; subst h2; subst h3; subst h4
  cases lr <;>
    exact ⟨by decide, rfl, rfl, rfl, rfl, by decide, rfl, by decide, rfl⟩

theorem c8_amended_witness :
    resourceAttributes = [("service.name", "hello-app"), ("service.version", "1.0")]
    ∧ (runMain wServe).tracerResource = some resourceAttributes
    ∧ (runMain wServe).controllerResource = some resourceAttributes
    ∧ (runMain wServe).collectPeriodSecs = some 5
    ∧ (runMain wServe).instruments = [numberOfExecutionsInstrument, heapMemoryInstrument]
    ∧ numberOfExecutionsInstrument.name = "custom.metric.number.of.exec"
    ∧ numberOfExecutionsInstrument.kind = InstrumentKind.counter
    ∧ heapMemoryInstrument.name = "custom.metric.heap.memory"
    ∧ heapMemoryInstrument.kind = InstrumentKind.counterObserver :=
  c8_amended_telemetry_identity wServe rfl rfl rfl rfl

/-- Claim C9: at a collection tick the heap-memory callback observes
`int64(mem.HeapAlloc)`; for every runtime-reported heap size below
2^63 bytes (all physically possible values) the observed value equals
the reported heap bytes exactly and is non-negative. -/
theorem c9_heap_callback_value (h : Nat) (hlt : h < 2 ^ 63) :
    heapMemoryCallback h = (h : Int) ∧ 0 ≤ heapMemoryCallback h := by
  have h64 : h < 2 ^ 64 := lt_trans hlt (by norm_num)
  have hmod : h % 2 ^ 64 = h := Nat.mod_eq_of_lt h64
  unfold heapMemoryCallback uint64ToInt64
  rw [hmod, if_pos hlt]
  exact ⟨rfl, Int.natCast_nonneg h⟩

theorem c9_heap_callback_witness :
    heapMemoryCallback 1048576 = (1048576 : Int) ∧ 0 ≤ heapMemoryCallback 1048576 :=
  c9_heap_callback_value 1048576 (by norm_num)

/-- Claim C10: `isValid` returns true for every Response value, so the
auxiliary check inside `mySpan` always succeeds and every request
appends "The response is valid" to the log (and emits the
corresponding log event). -/
theorem c10_isValid_always_true :
    (∀ r : Response, Response.isValid r = true)
    ∧ (∀ c l, Event.logged "The response is valid" ∈ (serveHello c l).2.2)
    ∧ (∀ c l, "The response is valid" ∈ (serveHello c l).1.logs) := by
  refine ⟨fun r => rfl, fun c l => ?_, fun c l => ?_⟩
  · rw [serveHello_events]; decide
  · rw [serveHello_logs]; simp

end OtelHello
